import Mathlib

/-!
Verification development for the nema-core requirements-management backend.

The definitions below are a shallow embedding of the Python source under
services/nema-core/src: the SQLAlchemy tables become lists of records, a
database state is a structure of such lists together with per-table
autoincrement counters, and each service method or route handler becomes a
pure Lean function from a database state (plus request data) to a new
database state and an outcome.  Strings, booleans and optional values are
carried over directly; JSON metadata is modelled by the two keys the code
ever reads (created_by and product_id).
-/

namespace Nema

/-- JSON metadata dictionary restricted to the two keys the product service
reads: created_by and product_id.  A missing key is modelled by none. -/
structure JsonObj where
  created_by : Option String := none
  product_id : Option Nat := none
deriving DecidableEq, Repr

/-- Row of the product table (database/models.py, class Product).  The
declared columns are id, workspace_id, name, description, meta_data and
created_at; created_at is irrelevant to every claim and omitted. -/
structure Product where
  id : Nat
  workspace_id : Nat
  name : String
  description : Option String := none
  meta_data : Option JsonObj := none
deriving DecidableEq, Repr

/-- Row of the req_collection table (class ReqCollection). -/
structure ReqCollection where
  id : Nat
  workspace_id : Nat
  name : String
  meta_data : Option JsonObj := none
deriving DecidableEq, Repr

/-- Row of the module table (class Module). -/
structure Module where
  id : Nat
  workspace_id : Nat
  req_collection_id : Nat
  name : String
  description : Option String := none
  rules : Option String := none
  shared : Bool := false
  meta_data : Option JsonObj := none
deriving DecidableEq, Repr

/-- Row of the product_modules junction table (class ProductModule); its
primary key is the triple of foreign keys. -/
structure ProductModule where
  workspace_id : Nat
  product_id : Nat
  module_id : Nat
deriving DecidableEq, Repr

/-- Row of the req table (class Req), reduced to the one column the product
deletion preview reads, its req_collection_id. -/
structure ReqRow where
  id : Nat
  req_collection_id : Nat
deriving DecidableEq, Repr

/-- Row of the tag table (class Tag). -/
structure Tag where
  id : Nat
  workspace_id : Nat
  name : String
  color : Option String := none
deriving DecidableEq, Repr

/-- Relational state: one list per table touched by the claims, plus the
autoincrement counter of each table that receives inserts. -/
structure DB where
  products : List Product := []
  req_collections : List ReqCollection := []
  modules : List Module := []
  product_modules : List ProductModule := []
  reqs : List ReqRow := []
  tags : List Tag := []
  next_product_id : Nat := 1
  next_rc_id : Nat := 1
  next_module_id : Nat := 1
  next_tag_id : Nat := 1
deriving DecidableEq, Repr

/-- Result object of ProductService.create_product_with_defaults
(product_service.py, class ProductCreationResult). -/
structure ProductCreationResult where
  product : Product
  module : Option Module
  req_collection : Option ReqCollection
deriving DecidableEq, Repr

/-- Lookup of a product scoped to a workspace, as the query
select(Product).where(Product.id == product_id and
Product.workspace_id == workspace_id) with scalar_one_or_none. -/
def findProduct (db : DB) (workspace_id product_id : Nat) : Option Product :=
  db.products.find? (fun p => p.id == product_id && p.workspace_id == workspace_id)

/-- Lookup of a req_collection by primary key, as
select(ReqCollection).where(ReqCollection.id == rc_id) with
scalar_one_or_none. -/
def findReqCollection (db : DB) (rc_id : Nat) : Option ReqCollection :=
  db.req_collections.find? (fun rc => rc.id == rc_id)

/-- ProductService.create_product_with_defaults (product_service.py lines
33-151), success path.  Step 1 inserts the Product; with create_defaults
false the method commits and returns a result with empty module and
req_collection; otherwise steps 2-4 insert the ReqCollection, the base
Module and the ProductModule junction row, and step 5 commits. -/
def create_product_with_defaults (db : DB) (workspace_id : Nat) (name : String)
    (description : Option String) (metadata : Option JsonObj)
    (create_defaults : Bool) : DB × ProductCreationResult :=
  let product : Product :=
    { id := db.next_product_id, workspace_id := workspace_id, name := name,
      description := description, meta_data := metadata }
  let db1 : DB :=
    { db with products := db.products ++ [product],
              next_product_id := db.next_product_id + 1 }
  if !create_defaults then
    (db1, { product := product, module := none, req_collection := none })
  else
    let req_collection : ReqCollection :=
      { id := db1.next_rc_id, workspace_id := workspace_id,
        name := name ++ " - Requirements",
        meta_data := some { created_by := some "product_service",
                            product_id := some product.id } }
    let db2 : DB :=
      { db1 with req_collections := db1.req_collections ++ [req_collection],
                 next_rc_id := db1.next_rc_id + 1 }
    let module : Module :=
      { id := db2.next_module_id, workspace_id := workspace_id,
        req_collection_id := req_collection.id,
        name := name ++ " - Base Module",
        description := some ("Base module for " ++ name),
        rules := some "Default module rules - customize as needed",
        shared := false,
        meta_data := some { created_by := some "product_service",
                            product_id := some product.id } }
    let db3 : DB :=
      { db2 with modules := db2.modules ++ [module],
                 next_module_id := db2.next_module_id + 1 }
    let product_module : ProductModule :=
      { workspace_id := workspace_id, product_id := product.id,
        module_id := module.id }
    let db4 : DB :=
      { db3 with product_modules := db3.product_modules ++ [product_module] }
    (db4, { product := product, module := some module,
            req_collection := some req_collection })

/-- Truth test performed by delete_product and get_deletion_preview on a
module: meta_data is present (a JSON object with neither key set models an
empty, hence falsy, dictionary compatibly, since both key reads then give
none), created_by reads "product_service" and product_id reads the id of
the product being deleted. -/
def isAutoCreatedModule (m : Module) (product_id : Nat) : Bool :=
  match m.meta_data with
  | none => false
  | some md =>
      md.created_by == some "product_service" && md.product_id == some product_id

/-- Same truth test on a req_collection
(req_collection and req_collection.meta_data, then the two key reads). -/
def isAutoCreatedRc (rc : ReqCollection) (product_id : Nat) : Bool :=
  match rc.meta_data with
  | none => false
  | some md =>
      md.created_by == some "product_service" && md.product_id == some product_id

/-- Membership of a module in the join
select(Module).join(ProductModule).where(ProductModule.product_id ==
product_id and ProductModule.workspace_id == workspace_id); the join
condition from the relationship is ProductModule.module_id == Module.id. -/
def isAssociated (db : DB) (workspace_id product_id : Nat) (m : Module) : Bool :=
  db.product_modules.any (fun pm =>
    pm.module_id == m.id && pm.product_id == product_id &&
      pm.workspace_id == workspace_id)

/-- Modules returned by that join, in table order. -/
def modulesOfProduct (db : DB) (workspace_id product_id : Nat) : List Module :=
  db.modules.filter (isAssociated db workspace_id product_id)

/-- Query select(ProductModule).where(ProductModule.module_id == module_id
and ProductModule.product_id != product_id) is non-empty: the module is
linked to some other product. -/
def moduleUsedByOtherProduct (db : DB) (module_id product_id : Nat) : Bool :=
  db.product_modules.any (fun pm =>
    pm.module_id == module_id && pm.product_id != product_id)

/-- Query select(Module).where(Module.req_collection_id == rc_id and
Module.id != module_id) is non-empty: another module references the
collection. -/
def rcUsedByOtherModule (db : DB) (rc_id module_id : Nat) : Bool :=
  db.modules.any (fun m2 => m2.req_collection_id == rc_id && m2.id != module_id)

/-- Modules collected into modules_to_delete by the loop of
ProductService.delete_product (lines 266-289): associated with the product,
auto-created by the product service, not shared, and linked to no other
product. -/
def deletionPlanModules (db : DB) (workspace_id product_id : Nat) : List Module :=
  (modulesOfProduct db workspace_id product_id).filter (fun m =>
    isAutoCreatedModule m product_id && !m.shared &&
      !moduleUsedByOtherProduct db m.id product_id)

/-- Collections collected into req_collections_to_delete by the nested part
of the same loop (lines 291-317): for each module to be deleted with a
truthy req_collection_id, the collection is looked up and kept when its
metadata marks it auto-created for this product and no other module
references it. -/
def deletionPlanRcs (db : DB) (workspace_id product_id : Nat) : List ReqCollection :=
  (deletionPlanModules db workspace_id product_id).filterMap (fun m =>
    if m.req_collection_id != 0 then
      match findReqCollection db m.req_collection_id with
      | some rc =>
          if isAutoCreatedRc rc product_id &&
              !rcUsedByOtherModule db rc.id m.id then some rc else none
      | none => none
    else none)

/-- ProductService.delete_product (product_service.py lines 214-376).  After
verifying the product exists in the workspace it computes the two deletion
lists, then deletes the junction rows of the product, the selected
collections, the selected modules, and finally the product, in one
transaction.  A missing product raises, modelled as an error value. -/
def delete_product (db : DB) (workspace_id product_id : Nat) : Except String DB :=
  match findProduct db workspace_id product_id with
  | none =>
      .error s!"Product with ID {product_id} not found in workspace {workspace_id}"
  | some product =>
      let modules_to_delete := deletionPlanModules db workspace_id product_id
      let req_collections_to_delete := deletionPlanRcs db workspace_id product_id
      let db1 : DB :=
        { db with product_modules := db.product_modules.filter (fun pm =>
            !(pm.product_id == product_id && pm.workspace_id == workspace_id)) }
      let db2 : DB :=
        { db1 with req_collections := db1.req_collections.filter (fun rc =>
            !(req_collections_to_delete.any (fun d => d.id == rc.id))) }
      let db3 : DB :=
        { db2 with modules := db2.modules.filter (fun m =>
            !(modules_to_delete.any (fun d => d.id == m.id))) }
      let db4 : DB :=
        { db3 with products := db3.products.filter (fun p => !(p.id == product.id)) }
      .ok db4

/-- Dictionary appended to preview.modules_to_delete
(get_deletion_preview, lines 450-454). -/
structure PreviewModuleEntry where
  id : Nat
  name : String
  description : Option String
deriving DecidableEq, Repr

/-- Dictionary appended to preview.req_collections_to_delete
(get_deletion_preview, lines 489-493). -/
structure PreviewRcEntry where
  id : Nat
  name : String
  requirements_count : Nat
deriving DecidableEq, Repr

/-- Result object of ProductService.get_deletion_preview
(class ProductDeletionPreview). -/
structure ProductDeletionPreview where
  modules_to_delete : List PreviewModuleEntry := []
  req_collections_to_delete : List PreviewRcEntry := []
  requirements_count : Nat := 0
deriving DecidableEq, Repr

/-- Query select(func.count(Req.id)).where(Req.req_collection_id == rc_id). -/
def countReqsInCollection (db : DB) (rc_id : Nat) : Nat :=
  (db.reqs.filter (fun r => r.req_collection_id == rc_id)).length

/-- Modules selected by the loop of ProductService.get_deletion_preview
(lines 430-449), a verbatim duplicate of the selection in delete_product,
translated here separately from its own lines. -/
def previewSelectedModules (db : DB) (workspace_id product_id : Nat) : List Module :=
  (db.modules.filter (fun m =>
      db.product_modules.any (fun pm =>
        pm.module_id == m.id && pm.product_id == product_id &&
          pm.workspace_id == workspace_id))).filter (fun m =>
    isAutoCreatedModule m product_id && !m.shared &&
      !moduleUsedByOtherProduct db m.id product_id)

/-- ProductService.get_deletion_preview (product_service.py lines 378-504). -/
def get_deletion_preview (db : DB) (workspace_id product_id : Nat) :
    Except String ProductDeletionPreview :=
  match findProduct db workspace_id product_id with
  | none =>
      .error s!"Product with ID {product_id} not found in workspace {workspace_id}"
  | some _ =>
      let mods := previewSelectedModules db workspace_id product_id
      let rcEntries : List PreviewRcEntry := mods.filterMap (fun m =>
        if m.req_collection_id != 0 then
          match findReqCollection db m.req_collection_id with
          | some rc =>
              if isAutoCreatedRc rc product_id &&
                  !rcUsedByOtherModule db rc.id m.id then
                some { id := rc.id, name := rc.name,
                       requirements_count := countReqsInCollection db rc.id }
              else none
          | none => none
        else none)
      .ok { modules_to_delete := mods.map (fun m =>
              { id := m.id, name := m.name, description := m.description }),
            req_collections_to_delete := rcEntries,
            requirements_count :=
              (rcEntries.map PreviewRcEntry.requirements_count).sum }

/-- Key-based membership in a list from which the rows whose key occurs in a
selection have been filtered out. -/
theorem mem_key_filterOut_iff {α : Type} (key : α → Nat) (l sel : List α) (i : Nat) :
    i ∈ (l.filter (fun y => !(sel.any (fun d => key d == key y)))).map key ↔
      (i ∈ l.map key ∧ i ∉ sel.map key) := by
  constructor
  · intro h
    obtain ⟨y, hy, rfl⟩ := List.mem_map.1 h
    have hyl := List.mem_of_mem_filter hy
    have hpred := (List.mem_filter.1 hy).2
    rw [Bool.not_eq_true', List.any_eq_false] at hpred
    refine ⟨List.mem_map_of_mem _ hyl, ?_⟩
    intro hmem
    obtain ⟨d, hd, hdk⟩ := List.mem_map.1 hmem
    have := hpred d hd
    simp only [beq_iff_eq] at this
    exact this hdk
  · rintro ⟨h1, h2⟩
    obtain ⟨y, hy, rfl⟩ := List.mem_map.1 h1
    refine List.mem_map_of_mem _ (List.mem_filter.2 ⟨hy, ?_⟩)
    rw [Bool.not_eq_true', List.any_eq_false]
    intro d hd
    simp only [beq_iff_eq]
    intro hkk
    exact h2 (hkk ▸ List.mem_map_of_mem _ hd)

/-- With pairwise distinct keys, a row is absent from the filtered-out list
exactly when it was selected. -/
theorem key_notMem_removed_iff {α : Type} (key : α → Nat) (l sel : List α)
    (hnd : (l.map key).Nodup) (hsub : ∀ x ∈ sel, x ∈ l) (x : α) (hx : x ∈ l) :
    key x ∉ (l.filter (fun y => !(sel.any (fun d => key d == key y)))).map key ↔
      x ∈ sel := by
  have hinj : ∀ a ∈ l, ∀ b ∈ l, key a = key b → a = b := fun a ha b hb h =>
    List.inj_on_of_nodup_map hnd ha hb h
  rw [mem_key_filterOut_iff]
  constructor
  · intro h
    by_contra hxsel
    apply h
    refine ⟨List.mem_map_of_mem _ hx, ?_⟩
    intro hmem
    obtain ⟨d, hd, hdk⟩ := List.mem_map.1 hmem
    exact hxsel (hinj d (hsub d hd) x hx hdk ▸ hd)
  · intro hxsel h
    exact h.2 (List.mem_map_of_mem _ hxsel)

/-- Characterisation of find? by a key comparison when keys are pairwise
distinct. -/
theorem find?_key_eq_some_iff {α : Type} (key : α → Nat) (l : List α)
    (hnd : (l.map key).Nodup) (n : Nat) (x : α) :
    l.find? (fun y => key y == n) = some x ↔ (x ∈ l ∧ key x = n) := by
  induction l with
  | nil => simp
  | cons a t ih =>
    rw [List.map_cons, List.nodup_cons] at hnd
    by_cases ha : key a = n
    · rw [List.find?_cons_of_pos _ (by simpa using ha)]
      constructor
      · rintro h
        injection h with h
        subst h
        exact ⟨List.mem_cons_self _ _, ha⟩
      · rintro ⟨hmem, hkey⟩
        rcases List.mem_cons.1 hmem with rfl | hmem
        · rfl
        · exact absurd (hkey.trans ha.symm ▸ List.mem_map_of_mem key hmem) hnd.1
    · rw [List.find?_cons_of_neg _ (by simpa using ha)]
      rw [ih hnd.2]
      constructor
      · rintro ⟨hmem, hkey⟩
        exact ⟨List.mem_cons_of_mem _ hmem, hkey⟩
      · rintro ⟨hmem, hkey⟩
        rcases List.mem_cons.1 hmem with rfl | hmem
        · exact absurd hkey ha
        · exact ⟨hmem, hkey⟩

/-- Every module in the deletion plan is a row of the module table. -/
theorem deletionPlanModules_subset (db : DB) (wid pid : Nat) :
    ∀ m ∈ deletionPlanModules db wid pid, m ∈ db.modules := fun m hm =>
  List.mem_of_mem_filter (List.mem_of_mem_filter hm)

/-- Every collection in the deletion plan is a row of the req_collection
table. -/
theorem deletionPlanRcs_subset (db : DB) (wid pid : Nat) :
    ∀ rc ∈ deletionPlanRcs db wid pid, rc ∈ db.req_collections := by
  intro rc hrc
  obtain ⟨m, _, hf⟩ := List.mem_filterMap.1 hrc
  split at hf
  · split at hf
    · split at hf
      · injection hf with hf
        subst hf
        exact List.mem_of_find?_eq_some (by assumption)
      · cases hf
    · cases hf
  · cases hf

/-- Membership in the plan of collections to delete, unfolded to the guards
the code evaluates, assuming pairwise distinct collection ids. -/
theorem mem_deletionPlanRcs_iff (db : DB) (wid pid : Nat)
    (hR : (db.req_collections.map ReqCollection.id).Nodup)
    (rc : ReqCollection) (hrc : rc ∈ db.req_collections) :
    rc ∈ deletionPlanRcs db wid pid ↔
      ∃ m ∈ deletionPlanModules db wid pid,
        m.req_collection_id ≠ 0 ∧
        m.req_collection_id = rc.id ∧
        isAutoCreatedRc rc pid = true ∧
        rcUsedByOtherModule db rc.id m.id = false := by
  rw [deletionPlanRcs, List.mem_filterMap]
  constructor
  · rintro ⟨m, hm, hf⟩
    refine ⟨m, hm, ?_⟩
    split at hf
    · rename_i h0
      split at hf
      · rename_i rc' hfind
        split at hf
        · rename_i hg
          injection hf with hf
          rw [hf] at hfind hg
          have hchar := (find?_key_eq_some_iff ReqCollection.id
            db.req_collections hR m.req_collection_id rc).1 hfind
          rw [Bool.and_eq_true, Bool.not_eq_true'] at hg
          exact ⟨by simpa using h0, hchar.2.symm, hg.1, hg.2⟩
        · cases hf
      · cases hf
    · cases hf
  · rintro ⟨m, hm, h0, hid, hauto, hused⟩
    refine ⟨m, hm, ?_⟩
    have hfind : findReqCollection db m.req_collection_id = some rc :=
      (find?_key_eq_some_iff ReqCollection.id db.req_collections hR
        m.req_collection_id rc).2 ⟨hrc, hid.symm⟩
    rw [if_pos (by simpa using h0)]
    simp only [hfind]
    rw [if_pos (by rw [hauto, hused]; rfl)]

end Nema

namespace Nema

/-- C1: with create_defaults true the workflow creates, in one pass, the
product with the given fields, a requirement collection named
"name - Requirements", a non-shared base module named "name - Base Module"
pointing at that collection, and a junction row linking product and module,
returning exactly those three entities; with create_defaults false it
creates only the product and returns empty module and collection. -/
theorem create_product_with_defaults_spec (db : DB) (workspace_id : Nat)
    (name : String) (description : Option String) (metadata : Option JsonObj) :
    (let (db', r) := create_product_with_defaults db workspace_id name
        description metadata true
     r.product.workspace_id = workspace_id ∧
     r.product.name = name ∧
     r.product.description = description ∧
     r.product.meta_data = metadata ∧
     db'.products = db.products ++ [r.product] ∧
     (∃ rc, r.req_collection = some rc ∧
        rc.workspace_id = workspace_id ∧
        rc.name = name ++ " - Requirements" ∧
        db'.req_collections = db.req_collections ++ [rc] ∧
        (∃ m, r.module = some m ∧
           m.workspace_id = workspace_id ∧
           m.name = name ++ " - Base Module" ∧
           m.shared = false ∧
           m.req_collection_id = rc.id ∧
           db'.modules = db.modules ++ [m] ∧
           db'.product_modules = db.product_modules ++
             [{ workspace_id := workspace_id, product_id := r.product.id,
                module_id := m.id }]))) ∧
    (let (db', r) := create_product_with_defaults db workspace_id name
        description metadata false
     r.product.workspace_id = workspace_id ∧
     r.product.name = name ∧
     r.product.description = description ∧
     r.product.meta_data = metadata ∧
     r.module = none ∧
     r.req_collection = none ∧
     db'.products = db.products ++ [r.product] ∧
     db'.req_collections = db.req_collections ∧
     db'.modules = db.modules ∧
     db'.product_modules = db.product_modules) := by
  refine ⟨?_, ?_⟩ <;>
    simp [create_product_with_defaults]

/-- C2: a successful deletion removes an associated module exactly when the
module metadata marks it auto-created by the product service for this
product, the module is not shared, and no junction row links it to another
product; and it removes a collection exactly when that collection is the
req_collection of such a removed module, its metadata likewise marks it
auto-created for this product, and no other module references it.  Shared
or user-linked modules and collections are therefore never deleted. -/
theorem delete_product_deletes_exactly_auto_created (db : DB) (wid pid : Nat)
    (db' : DB) (hok : delete_product db wid pid = Except.ok db')
    (hM : (db.modules.map Module.id).Nodup)
    (hR : (db.req_collections.map ReqCollection.id).Nodup)
    (hRc0 : ∀ m ∈ db.modules, m.req_collection_id ≠ 0) :
    (∀ m ∈ db.modules,
       (m.id ∉ db'.modules.map Module.id ↔
         (isAssociated db wid pid m = true ∧
          isAutoCreatedModule m pid = true ∧
          m.shared = false ∧
          moduleUsedByOtherProduct db m.id pid = false))) ∧
    (∀ rc ∈ db.req_collections,
       (rc.id ∉ db'.req_collections.map ReqCollection.id ↔
         ∃ m ∈ db.modules,
           isAssociated db wid pid m = true ∧
           isAutoCreatedModule m pid = true ∧
           m.shared = false ∧
           moduleUsedByOtherProduct db m.id pid = false ∧
           m.req_collection_id = rc.id ∧
           isAutoCreatedRc rc pid = true ∧
           rcUsedByOtherModule db rc.id m.id = false)) := by
  rw [delete_product] at hok
  cases hfind : findProduct db wid pid with
  | none => rw [hfind] at hok; cases hok
  | some product =>
      rw [hfind] at hok
      injection hok with hok
      constructor
      · intro m hm
        rw [← hok]
        rw [key_notMem_removed_iff Module.id db.modules
          (deletionPlanModules db wid pid) hM
          (deletionPlanModules_subset db wid pid) m hm]
        rw [deletionPlanModules, modulesOfProduct, List.mem_filter,
          List.mem_filter]
        rw [Bool.and_eq_true, Bool.and_eq_true, Bool.not_eq_true',
          Bool.not_eq_true']
        constructor
        · rintro ⟨⟨_, hassoc⟩, ⟨hauto, hshared⟩, hother⟩
          exact ⟨hassoc, hauto, hshared, hother⟩
        · rintro ⟨hassoc, hauto, hshared, hother⟩
          exact ⟨⟨hm, hassoc⟩, ⟨hauto, hshared⟩, hother⟩
      · intro rc hrc
        rw [← hok]
        rw [key_notMem_removed_iff ReqCollection.id db.req_collections
          (deletionPlanRcs db wid pid) hR
          (deletionPlanRcs_subset db wid pid) rc hrc]
        rw [mem_deletionPlanRcs_iff db wid pid hR rc hrc]
        constructor
        · rintro ⟨m, hm, _, hid, hautorc, husedrc⟩
          have hmdb := deletionPlanModules_subset db wid pid m hm
          rw [deletionPlanModules, modulesOfProduct, List.mem_filter,
            List.mem_filter, Bool.and_eq_true, Bool.and_eq_true,
            Bool.not_eq_true', Bool.not_eq_true'] at hm
          exact ⟨m, hmdb, hm.1.2, hm.2.1.1, hm.2.1.2, hm.2.2, hid, hautorc,
            husedrc⟩
        · rintro ⟨m, hm, hassoc, hauto, hshared, hother, hid, hautorc, husedrc⟩
          refine ⟨m, ?_, hRc0 m hm, hid, hautorc, husedrc⟩
          rw [deletionPlanModules, modulesOfProduct, List.mem_filter,
            List.mem_filter, Bool.and_eq_true, Bool.and_eq_true,
            Bool.not_eq_true', Bool.not_eq_true']
          exact ⟨⟨hm, hassoc⟩, ⟨hauto, hshared⟩, hother⟩

/-- The module selection duplicated inside get_deletion_preview coincides
with the one inside delete_product; both are the same filters over the
module table. -/
theorem previewSelectedModules_eq (db : DB) (wid pid : Nat) :
    previewSelectedModules db wid pid = deletionPlanModules db wid pid := rfl

/-- The ids of the collection entries built by get_deletion_preview equal
the ids of the collections selected by delete_product. -/
theorem preview_rc_ids_eq (db : DB) (wid pid : Nat) :
    ((previewSelectedModules db wid pid).filterMap (fun m =>
        if m.req_collection_id != 0 then
          match findReqCollection db m.req_collection_id with
          | some rc =>
              if isAutoCreatedRc rc pid &&
                  !rcUsedByOtherModule db rc.id m.id then
                some { id := rc.id, name := rc.name,
                       requirements_count := countReqsInCollection db rc.id }
              else none
          | none => none
        else none)).map PreviewRcEntry.id =
      (deletionPlanRcs db wid pid).map ReqCollection.id := by
  rw [previewSelectedModules_eq, deletionPlanRcs, List.map_filterMap,
    List.map_filterMap]
  congr 1
  funext m
  by_cases h0 : (m.req_collection_id != 0) = true
  · rw [if_pos h0, if_pos h0]
    cases hfind : findReqCollection db m.req_collection_id with
    | none => rfl
    | some rc =>
        dsimp only
        by_cases hg : (isAutoCreatedRc rc pid &&
            !rcUsedByOtherModule db rc.id m.id) = true
        · rw [if_pos hg, if_pos hg]; rfl
        · rw [if_neg hg, if_neg hg]; rfl
  · rw [if_neg h0, if_neg h0]; rfl

/-- C5: on any state where both methods succeed, the module ids reported by
get_deletion_preview are exactly the module ids that delete_product removes
from the module table, and the collection ids reported are exactly the
collection ids removed from the req_collection table. -/
theorem deletion_preview_matches_delete (db : DB) (wid pid : Nat)
    (db' : DB) (pv : ProductDeletionPreview)
    (hdel : delete_product db wid pid = Except.ok db')
    (hprev : get_deletion_preview db wid pid = Except.ok pv) :
    (∀ i, i ∈ pv.modules_to_delete.map PreviewModuleEntry.id ↔
       (i ∈ db.modules.map Module.id ∧ i ∉ db'.modules.map Module.id)) ∧
    (∀ i, i ∈ pv.req_collections_to_delete.map PreviewRcEntry.id ↔
       (i ∈ db.req_collections.map ReqCollection.id ∧
        i ∉ db'.req_collections.map ReqCollection.id)) := by
  rw [delete_product] at hdel
  rw [get_deletion_preview] at hprev
  cases hfind : findProduct db wid pid with
  | none => rw [hfind] at hdel; cases hdel
  | some product =>
      rw [hfind] at hdel hprev
      injection hdel with hdel
      injection hprev with hprev
      have hmods : db'.modules = db.modules.filter (fun m =>
          !((deletionPlanModules db wid pid).any (fun d => d.id == m.id))) := by
        rw [← hdel]
      have hrcs : db'.req_collections = db.req_collections.filter (fun rc =>
          !((deletionPlanRcs db wid pid).any (fun d => d.id == rc.id))) := by
        rw [← hdel]
      have hpvm : pv.modules_to_delete.map PreviewModuleEntry.id =
          (deletionPlanModules db wid pid).map Module.id := by
        rw [← hprev]
        rw [List.map_map, previewSelectedModules_eq]
        rfl
      have hpvr : pv.req_collections_to_delete.map PreviewRcEntry.id =
          (deletionPlanRcs db wid pid).map ReqCollection.id := by
        rw [← hprev]
        exact preview_rc_ids_eq db wid pid
      constructor
      · intro i
        rw [hpvm, hmods,
          mem_key_filterOut_iff Module.id db.modules
            (deletionPlanModules db wid pid) i]
        constructor
        · intro hi
          have hsub : i ∈ db.modules.map Module.id := by
            obtain ⟨m, hm, rfl⟩ := List.mem_map.1 hi
            exact List.mem_map_of_mem _ (deletionPlanModules_subset db wid pid m hm)
          exact ⟨hsub, fun h => h.2 hi⟩
        · rintro ⟨h1, h2⟩
          by_contra hni
          exact h2 ⟨h1, hni⟩
      · intro i
        rw [hpvr, hrcs,
          mem_key_filterOut_iff ReqCollection.id db.req_collections
            (deletionPlanRcs db wid pid) i]
        constructor
        · intro hi
          have hsub : i ∈ db.req_collections.map ReqCollection.id := by
            obtain ⟨rc, hrc, rfl⟩ := List.mem_map.1 hi
            exact List.mem_map_of_mem _ (deletionPlanRcs_subset db wid pid rc hrc)
          exact ⟨hsub, fun h => h.2 hi⟩
        · rintro ⟨h1, h2⟩
          by_contra hni
          exact h2 ⟨h1, hni⟩

/-- Session state of one transaction: the committed database visible after
the request, and the pending view the session operates on. -/
structure Txn where
  committed : DB
  pending : DB

/-- One step of a service method against the session: a buffered mutation
(session.add, session.delete, each followed by at most a flush, which stays
inside the transaction) or session.commit. -/
inductive DbOp where
  | mutate (f : DB → DB)
  | commit

/-- Runs the steps in order.  When the step counter reaches the injected
failure index the step raises: the except handler calls session.rollback,
which discards the pending view, and re-raises, reported as false.  This is
the try/except/rollback/raise structure wrapping both
create_product_with_defaults (lines 58-151) and delete_product
(lines 232-376). -/
def runOps : List DbOp → Option Nat → Nat → Txn → Txn × Bool
  | [], _, _, t => (t, true)
  | op :: ops, failAt, i, t =>
      if failAt = some i then ({ t with pending := t.committed }, false)
      else
        match op with
        | .mutate f => runOps ops failAt (i + 1) { t with pending := f t.pending }
        | .commit => runOps ops failAt (i + 1) { t with committed := t.pending }

/-- Database steps of create_product_with_defaults in program order: insert
the product, then either commit (create_defaults false) or insert the
collection, the module and the junction row and commit.  The generated ids
are captured from the initial state, as the flushed ids are in the Python
locals. -/
def createOps (db : DB) (workspace_id : Nat) (name : String)
    (description : Option String) (metadata : Option JsonObj)
    (create_defaults : Bool) : List DbOp :=
  let product : Product :=
    { id := db.next_product_id, workspace_id := workspace_id, name := name,
      description := description, meta_data := metadata }
  let addProduct : DB → DB := fun d =>
    { d with products := d.products ++ [product],
             next_product_id := d.next_product_id + 1 }
  if !create_defaults then [DbOp.mutate addProduct, DbOp.commit]
  else
    let req_collection : ReqCollection :=
      { id := db.next_rc_id, workspace_id := workspace_id,
        name := name ++ " - Requirements",
        meta_data := some { created_by := some "product_service",
                            product_id := some product.id } }
    let module : Module :=
      { id := db.next_module_id, workspace_id := workspace_id,
        req_collection_id := req_collection.id,
        name := name ++ " - Base Module",
        description := some ("Base module for " ++ name),
        rules := some "Default module rules - customize as needed",
        shared := false,
        meta_data := some { created_by := some "product_service",
                            product_id := some product.id } }
    [DbOp.mutate addProduct,
     DbOp.mutate (fun d =>
       { d with req_collections := d.req_collections ++ [req_collection],
                next_rc_id := d.next_rc_id + 1 }),
     DbOp.mutate (fun d =>
       { d with modules := d.modules ++ [module],
                next_module_id := d.next_module_id + 1 }),
     DbOp.mutate (fun d =>
       { d with product_modules := d.product_modules ++
           [{ workspace_id := workspace_id, product_id := product.id,
              module_id := module.id }] }),
     DbOp.commit]

/-- Database steps of delete_product in program order, for a product that
was found: delete the junction rows, the selected collections, the selected
modules and the product, then commit.  The deletion lists are computed by
queries before any mutation, hence against the initial state. -/
def deleteOps (db : DB) (workspace_id product_id : Nat) (product : Product) :
    List DbOp :=
  [DbOp.mutate (fun d =>
     { d with product_modules := d.product_modules.filter (fun pm =>
         !(pm.product_id == product_id && pm.workspace_id == workspace_id)) }),
   DbOp.mutate (fun d =>
     { d with req_collections := d.req_collections.filter (fun rc =>
         !((deletionPlanRcs db workspace_id product_id).any
             (fun x => x.id == rc.id))) }),
   DbOp.mutate (fun d =>
     { d with modules := d.modules.filter (fun m =>
         !((deletionPlanModules db workspace_id product_id).any
             (fun x => x.id == m.id))) }),
   DbOp.mutate (fun d =>
     { d with products := d.products.filter (fun p => !(p.id == product.id)) }),
   DbOp.commit]

/-- C4: if any step of the creation workflow (either branch) or of the
deletion workflow raises before its final commit, the rollback leaves the
committed database unchanged and the error is re-raised; a run without
failures commits exactly the state that the pure service functions
produce. -/
theorem product_workflows_atomic (db : DB) (wid : Nat) (name : String)
    (desc : Option String) (md : Option JsonObj) (pid : Nat)
    (product : Product) (hfind : findProduct db wid pid = some product)
    (k kf kd : Nat) (hk : k < 4) (hkf : kf < 1) (hkd : kd < 4) :
    runOps (createOps db wid name desc md true) (some k) 0 ⟨db, db⟩ =
      (⟨db, db⟩, false) ∧
    runOps (createOps db wid name desc md false) (some kf) 0 ⟨db, db⟩ =
      (⟨db, db⟩, false) ∧
    runOps (deleteOps db wid pid product) (some kd) 0 ⟨db, db⟩ =
      (⟨db, db⟩, false) ∧
    (runOps (createOps db wid name desc md true) none 0 ⟨db, db⟩).1.committed =
      (create_product_with_defaults db wid name desc md true).1 ∧
    (runOps (createOps db wid name desc md false) none 0 ⟨db, db⟩).1.committed =
      (create_product_with_defaults db wid name desc md false).1 ∧
    (∀ db', delete_product db wid pid = Except.ok db' →
      (runOps (deleteOps db wid pid product) none 0 ⟨db, db⟩).1.committed = db') := by
  refine ⟨?_, ?_, ?_, ?_, ?_, ?_⟩
  · interval_cases k <;> simp [createOps, runOps]
  · interval_cases kf <;> simp [createOps, runOps]
  · interval_cases kd <;> simp [deleteOps, runOps]
  · simp [createOps, runOps, create_product_with_defaults]
  · simp [createOps, runOps, create_product_with_defaults]
  · intro db' hdel
    rw [delete_product, hfind] at hdel
    injection hdel with hdel

end Nema

namespace Nema

/-- Attribute names defined on the Product ORM class (database/models.py
lines 81-94): the declared columns and relationships.  The products API
additionally dereferences default_module, default_module_id and public_id,
none of which the class defines; evaluating such an access raises
AttributeError. -/
def productModelAttrs : List String :=
  ["id", "workspace_id", "name", "description", "meta_data", "created_at",
   "workspace", "product_modules"]

/-- Exceptions a route handler can surface: an HTTPException with a status
code (returned as that status) or another uncaught Python error, which
FastAPI turns into a 500 response. -/
inductive PyErr where
  | httpExc (status : Nat)
  | attributeError (attr : String)
deriving DecidableEq, Repr

/-- Helper get_product_in_workspace (products.py lines 93-114).  Building
the query evaluates selectinload(Product.default_module) before execution;
since the Product class has no default_module attribute this raises, and
only otherwise would a missing row raise the 404. -/
def get_product_in_workspace (db : DB) (workspace_id product_id : Nat) :
    Except PyErr Product :=
  if productModelAttrs.contains "default_module" then
    match findProduct db workspace_id product_id with
    | some p => Except.ok p
    | none => Except.error (PyErr.httpExc 404)
  else Except.error (PyErr.attributeError "default_module")

/-- ProductService.get_product_with_details (product_service.py lines
153-212): the product scoped to the workspace, the first associated module,
and that module's collection. -/
def get_product_with_details (db : DB) (workspace_id product_id : Nat) :
    Option ProductCreationResult :=
  match findProduct db workspace_id product_id with
  | none => none
  | some p =>
      let module := (db.modules.filter (fun m =>
        db.product_modules.any (fun pm =>
          pm.module_id == m.id && pm.product_id == product_id &&
            pm.workspace_id == workspace_id))).head?
      let req_collection :=
        match module with
        | some m => findReqCollection db m.req_collection_id
        | none => none
      some { product := p, module := module, req_collection := req_collection }

/-- Status returned by GET /products/product_id (products.py lines
388-463).  With include_details the service lookup is used and a missing
product raises 404; a found product then has result.product.public_id read
while building the response, an attribute the Product class lacks.  Without
include_details the handler calls get_product_in_workspace, whose
AttributeError surfaces as 500 before any 404 can be raised. -/
def get_product_endpoint (db : DB) (workspace_id product_id : Nat)
    (include_details : Bool) : Nat :=
  if include_details then
    match get_product_with_details db workspace_id product_id with
    | none => 404
    | some _ => if productModelAttrs.contains "public_id" then 200 else 500
  else
    match get_product_in_workspace db workspace_id product_id with
    | Except.error (PyErr.httpExc s) => s
    | Except.error _ => 500
    | Except.ok _ => if productModelAttrs.contains "public_id" then 200 else 500

/-- Request body of PUT /products/product_id (class ProductUpdate). -/
structure ProductUpdate where
  name : Option String := none
  description : Option String := none
  metadata : Option JsonObj := none
  selected_module_ids : Option (List Nat) := none
deriving DecidableEq, Repr

/-- Route update_product (products.py lines 466-576), returning the
committed database and the response status.  The first statement calls
get_product_in_workspace, so every request stops there with the
default_module AttributeError and the session is rolled back; the remaining
branches model the lines that would follow.  In those lines, a selected id
that resolves to a shared module of the workspace makes line 511 read
product.default_module_id, a missing attribute, before the commit; with no
such id the handler commits the field updates and junction removals and
then reads product.default_module while building the response, failing
after the commit. -/
def update_product_endpoint (db : DB) (workspace_id product_id : Nat)
    (pd : ProductUpdate) : DB × Nat :=
  match get_product_in_workspace db workspace_id product_id with
  | Except.error (PyErr.httpExc s) => (db, s)
  | Except.error _ => (db, 500)
  | Except.ok product =>
      let product1 : Product :=
        { product with
          name := pd.name.getD product.name,
          description :=
            match pd.description with
            | some d => some d
            | none => product.description,
          meta_data :=
            match pd.metadata with
            | some m => some m
            | none => product.meta_data }
      let pending1 : DB :=
        { db with products := db.products.map (fun p =>
            if p.id == product.id then product1 else p) }
      match pd.selected_module_ids with
      | some ids =>
          let pending2 : DB :=
            { pending1 with product_modules :=
                pending1.product_modules.filter (fun pm =>
                  !(pm.product_id == product_id)) }
          if ids.any (fun mid => db.modules.any (fun m =>
              m.id == mid && m.workspace_id == workspace_id && m.shared)) then
            (db, 500)
          else
            (pending2, if productModelAttrs.contains "default_module" then 200 else 500)
      | none =>
          (pending1, if productModelAttrs.contains "default_module" then 200 else 500)

/-- Route delete_product (products.py lines 616-641): any exception from the
service, including the not-found one, is caught and mapped to a 500
HTTPException; success returns 204. -/
def delete_product_endpoint (db : DB) (workspace_id product_id : Nat) :
    DB × Nat :=
  match delete_product db workspace_id product_id with
  | Except.ok db' => (db', 204)
  | Except.error _ => (db, 500)

/-- Route get_product_deletion_preview (products.py lines 579-613): any
exception from the service is caught and mapped to 500; the response is
built from plain dictionaries, so success returns 200. -/
def deletion_preview_endpoint (db : DB) (workspace_id product_id : Nat) : Nat :=
  match get_deletion_preview db workspace_id product_id with
  | Except.ok _ => 200
  | Except.error _ => 500

/-- Parameter names of ProductService.create_product_with_defaults paired
with whether the parameter has a default (self is bound by the method
call). -/
def createProductWithDefaultsParams : List (String × Bool) :=
  [("workspace_id", false), ("name", false), ("description", true),
   ("metadata", true), ("create_defaults", true)]

/-- Keyword names used at the call site inside the create_product route
(products.py lines 283-289). -/
def createProductCallKwargs : List String :=
  ["workspace_id", "name", "description", "metadata", "create_default_module"]

/-- Python keyword binding for a call with keyword arguments only: it
succeeds when every keyword names a declared parameter and every parameter
without a default is bound; otherwise the call raises TypeError before the
callee body runs. -/
def kwCallBinds (params : List (String × Bool)) (kwargs : List String) : Bool :=
  kwargs.all (fun k => params.any (fun p => p.1 == k)) &&
    params.all (fun p => p.2 || kwargs.contains p.1)

/-- Request body of POST /products (class ProductCreate). -/
structure ProductCreate where
  name : String
  description : Option String := none
  metadata : Option JsonObj := none
  create_default_module : Bool := true
  selected_module_ids : Option (List Nat) := none
deriving DecidableEq, Repr

/-- Route create_product (products.py lines 269-385).  The handler calls
create_product_with_defaults with keyword create_default_module; when that
binding fails the TypeError is caught by the blanket except and mapped to a
500 HTTPException with nothing created.  Were the call to bind, the service
would run; the later association block builds ProductModule rows without a
workspace_id, which the NOT NULL column rejects inside its own swallowed
try, and the response build then reads result.product.public_id, an
attribute the Product class lacks, again inside the blanket except. -/
def create_product_endpoint (db : DB) (workspace_id : Nat)
    (pd : ProductCreate) : DB × Nat :=
  if kwCallBinds createProductWithDefaultsParams createProductCallKwargs then
    let (db1, _) := create_product_with_defaults db workspace_id pd.name
      pd.description pd.metadata pd.create_default_module
    (db1, if productModelAttrs.contains "public_id" then 201 else 500)
  else
    (db, 500)

/-- C3: the keyword create_default_module does not bind to any parameter of
create_product_with_defaults, whose flag is named create_defaults, so every
request to the create-product route raises TypeError, is answered with 500,
and creates nothing. -/
theorem create_product_route_always_500 (db : DB) (workspace_id : Nat)
    (pd : ProductCreate) :
    kwCallBinds createProductWithDefaultsParams createProductCallKwargs = false ∧
    create_product_endpoint db workspace_id pd = (db, 500) :=
  ⟨rfl, rfl⟩

/-- Concrete state for the missing-product counterexample: workspace 1
holds the single product 1, so product id 2 is missing. -/
def dbMissingProduct : DB :=
  { products := [{ id := 1, workspace_id := 1, name := "alpha" }],
    next_product_id := 2 }

/-- C6 counterexample: at a concrete state in which product 2 does not
exist in workspace 1, DELETE and the deletion preview answer 500, and GET
without details and PUT answer 500 as well; none of the four endpoints
named by the claim answers 404 here except GET with include_details. -/
theorem missing_product_not_404_counterexample :
    delete_product_endpoint dbMissingProduct 1 2 = (dbMissingProduct, 500) ∧
    deletion_preview_endpoint dbMissingProduct 1 2 = 500 ∧
    get_product_endpoint dbMissingProduct 1 2 false = 500 ∧
    update_product_endpoint dbMissingProduct 1 2 {} = (dbMissingProduct, 500) :=
  ⟨rfl, rfl, rfl, rfl⟩

/-- C6 amended: for a product id absent from the workspace, only GET with
include_details answers 404.  GET without details (the default) and PUT
fail for every product id with the default_module AttributeError, answered
500; DELETE and the deletion preview catch the not-found exception of the
service and answer 500, leaving the state unchanged. -/
theorem missing_product_statuses (db : DB) (workspace_id product_id : Nat)
    (h : findProduct db workspace_id product_id = none) :
    get_product_endpoint db workspace_id product_id true = 404 ∧
    (∀ q, get_product_endpoint db workspace_id q false = 500) ∧
    (∀ q pd, update_product_endpoint db workspace_id q pd = (db, 500)) ∧
    delete_product_endpoint db workspace_id product_id = (db, 500) ∧
    deletion_preview_endpoint db workspace_id product_id = 500 := by
  refine ⟨?_, ?_, ?_, ?_, ?_⟩
  · rw [get_product_endpoint, if_pos rfl, get_product_with_details, h]
  · intro q
    rfl
  · intro q pd
    rfl
  · rw [delete_product_endpoint, delete_product, h]
  · rw [deletion_preview_endpoint, get_deletion_preview, h]

/-- Concrete state for the update-route claim: product 1 of workspace 1
with its auto-created default module 10 linked through the junction table,
and a shared module 11 that an update request selects. -/
def dbUpdateInput : DB :=
  { products := [{ id := 1, workspace_id := 1, name := "alpha" }],
    req_collections :=
      [{ id := 20, workspace_id := 1, name := "alpha - Requirements",
         meta_data := some { created_by := some "product_service",
                             product_id := some 1 } }],
    modules :=
      [{ id := 10, workspace_id := 1, req_collection_id := 20,
         name := "alpha - Base Module", shared := false,
         meta_data := some { created_by := some "product_service",
                             product_id := some 1 } },
       { id := 11, workspace_id := 1, req_collection_id := 20,
         name := "shared lib", shared := true }],
    product_modules := [{ workspace_id := 1, product_id := 1, module_id := 10 }],
    next_product_id := 2, next_rc_id := 21, next_module_id := 12 }

/-- C10: at the concrete input above, the update route answers 500 and
leaves the database, junction rows included, unchanged: the handler raises
the default_module AttributeError while building its first query, before
the module-reassociation block runs, so no ProductModule row is ever
deleted or re-added by this route. -/
theorem update_product_route_crashes_before_reassociation :
    update_product_endpoint dbUpdateInput 1 1
        { selected_module_ids := some [11] } = (dbUpdateInput, 500) ∧
    (update_product_endpoint dbUpdateInput 1 1
        { selected_module_ids := some [11] }).1.product_modules =
      [{ workspace_id := 1, product_id := 1, module_id := 10 }] :=
  ⟨rfl, rfl⟩

end Nema

namespace Nema

/-- ASCII lowercase of one character, modelling str.lower() on the ASCII
configuration strings involved. -/
def asciiLowerChar (c : Char) : Char :=
  if ('A' ≤ c && c ≤ 'Z') then Char.ofNat (c.toNat + 32) else c

/-- ASCII lowercase of a string. -/
def asciiLower (s : String) : String := ⟨s.data.map asciiLowerChar⟩

/-- Configuration fields of config/settings.py read by the authentication
service.  The AWS fields are carried to express a state in which Cognito is
configured; the provider choice never reads them. -/
structure Settings where
  environment : String := "development"
  mock_auth_enabled : Bool := false
  clerk_secret_key : Option String := none
  aws_region : String := "us-west-2"
  aws_access_key_id : Option String := none
  aws_secret_access_key : Option String := none
deriving DecidableEq, Repr

/-- Property Settings.is_development: the lowercased environment is one of
development, dev, local. -/
def Settings.is_development (s : Settings) : Bool :=
  asciiLower s.environment == "development" ||
    asciiLower s.environment == "dev" || asciiLower s.environment == "local"

/-- Property Settings.is_production: the lowercased environment is
production or prod. -/
def Settings.is_production (s : Settings) : Bool :=
  asciiLower s.environment == "production" || asciiLower s.environment == "prod"

/-- Python truthiness of settings.clerk_secret_key: present and nonempty. -/
def clerkKeyTruthy (s : Settings) : Bool :=
  match s.clerk_secret_key with
  | some k => k != ""
  | none => false

/-- AuthService._determine_auth_provider (auth/routes.py lines 41-57): mock
when mock auth is enabled, else clerk when the Clerk secret key is truthy,
else mock in development, else a ValueError, modelled as an error value. -/
def determine_auth_provider (s : Settings) : Except String String :=
  if s.mock_auth_enabled then Except.ok "mock"
  else if clerkKeyTruthy s then Except.ok "clerk"
  else if s.is_development then Except.ok "mock"
  else Except.error "No authentication provider configured. Please configure CLERK_SECRET_KEY or enable MOCK_AUTH_ENABLED."

/-- Production settings with AWS Cognito credentials configured but neither
mock auth nor Clerk. -/
def cognitoProdSettings : Settings :=
  { environment := "production", mock_auth_enabled := false,
    clerk_secret_key := none, aws_region := "us-west-2",
    aws_access_key_id := some "AKIAEXAMPLE",
    aws_secret_access_key := some "example-secret" }

/-- C7 counterexample: with AWS Cognito configured and nothing else, the
provider choice does not select Cognito; it raises the ValueError, because
_determine_auth_provider has no Cognito branch at all. -/
theorem cognito_never_selected_counterexample :
    determine_auth_provider cognitoProdSettings =
      Except.error "No authentication provider configured. Please configure CLERK_SECRET_KEY or enable MOCK_AUTH_ENABLED." :=
  rfl

/-- C7 amended: the provider is chosen between mock and Clerk only — mock
when mock auth is enabled, otherwise Clerk when the Clerk secret key is set
and nonempty, otherwise mock in a development environment, and otherwise
(production included) a ValueError; no configuration selects Cognito. -/
theorem determine_auth_provider_amended (s : Settings) :
    (s.mock_auth_enabled = true → determine_auth_provider s = Except.ok "mock") ∧
    (s.mock_auth_enabled = false → clerkKeyTruthy s = true →
      determine_auth_provider s = Except.ok "clerk") ∧
    (s.mock_auth_enabled = false → clerkKeyTruthy s = false →
      s.is_development = true → determine_auth_provider s = Except.ok "mock") ∧
    (s.mock_auth_enabled = false → clerkKeyTruthy s = false →
      s.is_development = false →
      determine_auth_provider s =
        Except.error "No authentication provider configured. Please configure CLERK_SECRET_KEY or enable MOCK_AUTH_ENABLED.") ∧
    (∀ p, determine_auth_provider s = Except.ok p → p ≠ "cognito") := by
  refine ⟨?_, ?_, ?_, ?_, ?_⟩
  · intro h
    simp [determine_auth_provider, h]
  · intro h1 h2
    simp [determine_auth_provider, h1, h2]
  · intro h1 h2 h3
    simp [determine_auth_provider, h1, h2, h3]
  · intro h1 h2 h3
    simp [determine_auth_provider, h1, h2, h3]
  · intro p hp
    rw [determine_auth_provider] at hp
    split_ifs at hp <;>
      first
        | (injection hp with hp; subst hp; decide)
        | cases hp

/-- Settings with only mock auth enabled. -/
def mockOnlySettings : Settings := { mock_auth_enabled := true }

/-- C7 witness: the amended statement applied at two concrete
configurations. -/
theorem determine_auth_provider_amended_witness :
    determine_auth_provider mockOnlySettings = Except.ok "mock" ∧
    determine_auth_provider cognitoProdSettings =
      Except.error "No authentication provider configured. Please configure CLERK_SECRET_KEY or enable MOCK_AUTH_ENABLED." :=
  ⟨(determine_auth_provider_amended mockOnlySettings).1 rfl,
   (determine_auth_provider_amended cognitoProdSettings).2.2.2.1 rfl rfl rfl⟩

end Nema

namespace Nema

/-- Hex digit as accepted by the base-16 integer parse. -/
def isHexDigitChar (c : Char) : Bool :=
  c.isDigit || ('a' ≤ c && c ≤ 'f') || ('A' ≤ c && c ≤ 'F')

/-- Tail of a base-16 digit run: digits with single underscores allowed
between digits. -/
def hexTail : List Char → Bool
  | [] => true
  | '_' :: [] => false
  | '_' :: c :: cs => isHexDigitChar c && hexTail cs
  | c :: cs => isHexDigitChar c && hexTail cs

/-- Nonempty digit-led base-16 digit run. -/
def hexBody : List Char → Bool
  | [] => false
  | c :: cs => isHexDigitChar c && hexTail cs

/-- ASCII whitespace characters stripped by the Python integer parse. -/
def pyWhitespace : List Char := [' ', '\t', '\n', '\r', Char.ofNat 11, Char.ofNat 12]

/-- Strips surrounding ASCII whitespace from a character list. -/
def stripWs (l : List Char) : List Char :=
  ((l.dropWhile (fun c => pyWhitespace.contains c)).reverse.dropWhile
    (fun c => pyWhitespace.contains c)).reverse

/-- Acceptance of int(s, 16) in CPython for ASCII input: surrounding
whitespace stripped, an optional sign, an optional 0x or 0X marker
(optionally followed by one underscore), then hex digits with single
underscores between digits. -/
def pyIntBase16Accepts (s : String) : Bool :=
  let t0 := stripWs s.data
  let t1 :=
    match t0 with
    | '+' :: r => r
    | '-' :: r => r
    | r => r
  match t1 with
  | '0' :: 'x' :: r | '0' :: 'X' :: r =>
      (match r with
       | '_' :: r2 => hexBody r2
       | r2 => hexBody r2)
  | r => hexBody r

/-- ASCII uppercase of one character, modelling str.upper() on hex
digits. -/
def asciiUpperChar (c : Char) : Char :=
  if ('a' ≤ c && c ≤ 'z') then Char.ofNat (c.toNat - 32) else c

/-- Helper validate_hex_color (tags.py lines 80-105): a falsy color is
returned unchanged; otherwise a leading hash is dropped, the length must be
3 or 6, the rest must parse as a base-16 integer, and the normalised value
is the uppercased digits behind a hash.  A failed check raises
HTTPException 400, modelled as an error with that status. -/
def validate_hex_color (color : Option String) : Except Nat (Option String) :=
  match color with
  | none => Except.ok none
  | some c =>
      if c == "" then Except.ok (some c)
      else
        let c1 : String :=
          match c.data with
          | '#' :: rest => ⟨rest⟩
          | l => ⟨l⟩
        if !(c1.data.length == 3 || c1.data.length == 6) then Except.error 400
        else if !(pyIntBase16Accepts c1) then Except.error 400
        else Except.ok (some ⟨'#' :: c1.data.map asciiUpperChar⟩)

/-- State after inserting a fresh tag row. -/
def insertTag (db : DB) (workspace_id : Nat) (name : String)
    (validated : Option String) : DB :=
  let tag : Tag :=
    { id := db.next_tag_id, workspace_id := workspace_id, name := name,
      color := validated }
  { db with tags := db.tags ++ [tag], next_tag_id := db.next_tag_id + 1 }

/-- Route create_tag (tags.py lines 192-252): the color is validated first,
then a name conflict inside the workspace answers 409, and otherwise the
tag is inserted and the route answers 201. -/
def create_tag_endpoint (db : DB) (workspace_id : Nat) (name : String)
    (color : Option String) : DB × Nat :=
  match validate_hex_color color with
  | Except.error s => (db, s)
  | Except.ok validated =>
      if db.tags.any (fun t => t.workspace_id == workspace_id && t.name == name) then
        (db, 409)
      else
        (insertTag db workspace_id name validated, 201)

/-- Workspace 1 already holds a tag named alpha. -/
def dbTagConflict : DB :=
  { tags := [{ id := 1, workspace_id := 1, name := "alpha",
               color := some "#FF5733" }],
    next_tag_id := 2 }

/-- C9 counterexample: posting the duplicate name alpha with an invalid
color answers 400, not 409, because the color validation runs before the
conflict check; so a duplicate name does not always produce 409. -/
theorem create_tag_conflict_counterexample :
    create_tag_endpoint dbTagConflict 1 "alpha" (some "zzz") =
      (dbTagConflict, 400) :=
  rfl

/-- C9 amended: whenever the color passes validation (or is absent), the
route answers 409 and leaves the state unchanged exactly when a tag of the
same name exists in the workspace, and otherwise appends the new tag and
answers 201. -/
theorem create_tag_conflict_amended (db : DB) (workspace_id : Nat)
    (name : String) (color : Option String) (validated : Option String)
    (hv : validate_hex_color color = Except.ok validated) :
    (db.tags.any (fun t => t.workspace_id == workspace_id && t.name == name) = true →
      create_tag_endpoint db workspace_id name color = (db, 409)) ∧
    (db.tags.any (fun t => t.workspace_id == workspace_id && t.name == name) = false →
      create_tag_endpoint db workspace_id name color =
        (insertTag db workspace_id name validated, 201)) := by
  constructor
  · intro h
    rw [create_tag_endpoint, hv]
    dsimp only
    rw [if_pos h]
  · intro h
    rw [create_tag_endpoint, hv]
    dsimp only
    rw [if_neg (by rw [h]; exact Bool.false_ne_true)]

/-- C9 witness: the amended statement applied to the concrete conflicting
state with a valid color, and to a fresh name. -/
theorem create_tag_conflict_amended_witness :
    validate_hex_color (some "#ff5733") = Except.ok (some "#FF5733") ∧
    create_tag_endpoint dbTagConflict 1 "alpha" (some "#ff5733") =
      (dbTagConflict, 409) ∧
    create_tag_endpoint dbTagConflict 1 "beta" (some "#ff5733") =
      (insertTag dbTagConflict 1 "beta" (some "#FF5733"), 201) :=
  ⟨rfl,
   (create_tag_conflict_amended dbTagConflict 1 "alpha" (some "#ff5733")
     (some "#FF5733") rfl).1 rfl,
   (create_tag_conflict_amended dbTagConflict 1 "beta" (some "#ff5733")
     (some "#FF5733") rfl).2 rfl⟩

end Nema

namespace Nema

/-- Decimal digit character of a value below ten. -/
def decDigit (n : Nat) : Char := Char.ofNat (48 + n)

/-- Fuel-driven decimal rendering core, most significant digit first. -/
def decDigitsCore : Nat → Nat → List Char
  | 0, _ => []
  | fuel + 1, n =>
      if n < 10 then [decDigit n]
      else decDigitsCore fuel (n / 10) ++ [decDigit (n % 10)]

/-- Decimal rendering of a natural number, modelling the %s formatting of
an INTEGER value in PL/pgSQL format(); the fuel n + 1 always suffices. -/
def decDigits (n : Nat) : List Char := decDigitsCore (n + 1) n

/-- Decimal rendering as a string. -/
def decString (n : Nat) : String := ⟨decDigits n⟩

theorem decDigit_inj : ∀ a, a < 10 → ∀ b, b < 10 →
    decDigit a = decDigit b → a = b := by decide

theorem decDigit_isDigit : ∀ a, a < 10 → (decDigit a).isDigit = true := by decide

theorem decDigitsCore_ne_nil : ∀ fuel n, n < fuel → decDigitsCore fuel n ≠ [] := by
  intro fuel
  induction fuel with
  | zero => intro n hn; omega
  | succ f ih =>
      intro n _
      rw [decDigitsCore]
      by_cases h : n < 10
      · rw [if_pos h]; simp
      · rw [if_neg h]; simp

theorem decDigitsCore_all_digits : ∀ fuel n, n < fuel →
    ∀ c ∈ decDigitsCore fuel n, c.isDigit = true := by
  intro fuel
  induction fuel with
  | zero => intro n hn; omega
  | succ f ih =>
      intro n hn c hc
      rw [decDigitsCore] at hc
      by_cases h : n < 10
      · rw [if_pos h] at hc
        rcases List.mem_singleton.1 hc with rfl
        exact decDigit_isDigit n h
      · rw [if_neg h] at hc
        rcases List.mem_append.1 hc with hc | hc
        · have hdiv : n / 10 < f := by
            have h1 : n / 10 < n := Nat.div_lt_self (by omega) (by omega)
            omega
          exact ih (n / 10) hdiv c hc
        · rcases List.mem_singleton.1 hc with rfl
          exact decDigit_isDigit (n % 10) (Nat.mod_lt n (by omega))

theorem decDigitsCore_inj : ∀ fuel, ∀ a, a < fuel → ∀ g b, b < g →
    decDigitsCore fuel a = decDigitsCore g b → a = b := by
  intro fuel
  induction fuel with
  | zero => intro a ha; omega
  | succ f ih =>
      intro a ha g b hb heq
      cases g with
      | zero => omega
      | succ g' =>
          rw [decDigitsCore, decDigitsCore] at heq
          by_cases ha10 : a < 10
          · rw [if_pos ha10] at heq
            by_cases hb10 : b < 10
            · rw [if_pos hb10] at heq
              exact decDigit_inj a ha10 b hb10 (List.singleton_inj.1 heq)
            · rw [if_neg hb10] at heq
              exfalso
              have hne := decDigitsCore_ne_nil g' (b / 10) (by
                have : b / 10 < b := Nat.div_lt_self (by omega) (by omega)
                omega)
              have hlen := congrArg List.length heq
              rw [List.length_append, List.length_singleton,
                List.length_singleton] at hlen
              have := List.length_pos.2 hne
              omega
          · rw [if_neg ha10] at heq
            by_cases hb10 : b < 10
            · rw [if_pos hb10] at heq
              exfalso
              have hne := decDigitsCore_ne_nil f (a / 10) (by
                have : a / 10 < a := Nat.div_lt_self (by omega) (by omega)
                omega)
              have hlen := congrArg List.length heq
              rw [List.length_append, List.length_singleton,
                List.length_singleton] at hlen
              have := List.length_pos.2 hne
              omega
            · rw [if_neg hb10] at heq
              obtain ⟨h1, h2⟩ := List.append_inj' heq rfl
              have hdiva : a / 10 < f := by
                have : a / 10 < a := Nat.div_lt_self (by omega) (by omega)
                omega
              have hdivb : b / 10 < g' := by
                have : b / 10 < b := Nat.div_lt_self (by omega) (by omega)
                omega
              have hd := ih (a / 10) hdiva g' (b / 10) hdivb h1
              have hm := decDigit_inj (a % 10) (Nat.mod_lt a (by omega))
                (b % 10) (Nat.mod_lt b (by omega)) (List.singleton_inj.1 h2)
              omega

theorem decDigits_inj (a b : Nat) (h : decDigits a = decDigits b) : a = b :=
  decDigitsCore_inj (a + 1) a (Nat.lt_succ_self a) (b + 1) b
    (Nat.lt_succ_self b) h

theorem decDigits_all_digits (n : Nat) :
    ∀ c ∈ decDigits n, c.isDigit = true :=
  decDigitsCore_all_digits (n + 1) n (Nat.lt_succ_self n)

theorem decDigits_ne_nil (n : Nat) : decDigits n ≠ [] :=
  decDigitsCore_ne_nil (n + 1) n (Nat.lt_succ_self n)

/-- Two runs of characters satisfying a predicate followed by a character
refuting it split an equal concatenation at the same place. -/
theorem sep_run_inj (p : Char → Bool) :
    ∀ (xs xs' : List Char) (c c' : Char) (ys ys' : List Char),
      (∀ d ∈ xs, p d = true) → (∀ d ∈ xs', p d = true) →
      p c = false → p c' = false →
      xs ++ c :: ys = xs' ++ c' :: ys' → xs = xs' ∧ c = c' ∧ ys = ys' := by
  intro xs
  induction xs with
  | nil =>
      intro xs' c c' ys ys' _ hx' hc hc' heq
      cases xs' with
      | nil =>
          injection heq with h1 h2
          exact ⟨rfl, h1, h2⟩
      | cons d t =>
          injection heq with h1 _
          exfalso
          rw [h1] at hc
          rw [hx' d (List.mem_cons_self d t)] at hc
          cases hc
  | cons x t ihx =>
      intro xs' c c' ys ys' hx hx' hc hc' heq
      cases xs' with
      | nil =>
          injection heq with h1 _
          exfalso
          rw [← h1] at hc'
          rw [hx x (List.mem_cons_self x t)] at hc'
          cases hc'
      | cons d t' =>
          injection heq with h1 h2
          obtain ⟨e1, e2, e3⟩ := ihx t' c c' ys ys'
            (fun d hd => hx d (List.mem_cons_of_mem x hd))
            (fun d hd => hx' d (List.mem_cons_of_mem _ hd)) hc hc' h2
          exact ⟨by rw [h1, e1], e2, e3⟩

/-- Registry of the dynamically created PostgreSQL sequences, keyed by
sequence name, holding each sequence's next value. -/
def SeqSt := List (String × Nat)

/-- Reads the stored next value of a sequence. -/
def seqLookup : SeqSt → String → Option Nat
  | [], _ => none
  | (k, v) :: rest, name => if k == name then some v else seqLookup rest name

/-- Stores a next value for a sequence, creating the entry if absent. -/
def seqSet : SeqSt → String → Nat → SeqSt
  | [], name, v => [(name, v)]
  | (k, w) :: rest, name, v =>
      if k == name then (k, v) :: rest else (k, w) :: seqSet rest name v

/-- Value nextval returns on a sequence that is created on demand with
START 1: the stored next value, or 1 for a fresh sequence. -/
def seqVal (st : SeqSt) (name : String) : Nat :=
  match seqLookup st name with
  | some v => v
  | none => 1

/-- CREATE SEQUENCE IF NOT EXISTS followed by nextval
(generate_public_id, connection.py lines 236-240). -/
def nextval (st : SeqSt) (name : String) : Nat × SeqSt :=
  match seqLookup st name with
  | some v => (v, seqSet st name (v + 1))
  | none => (1, seqSet st name 2)

theorem seqLookup_seqSet_same (st : SeqSt) (name : String) (v : Nat) :
    seqLookup (seqSet st name v) name = some v := by
  induction st with
  | nil => simp [seqSet, seqLookup]
  | cons kv rest ih =>
      obtain ⟨k, w⟩ := kv
      rw [seqSet]
      by_cases h : (k == name) = true
      · rw [if_pos h, seqLookup, if_pos h]
      · rw [if_neg h, seqLookup, if_neg h]
        exact ih

theorem seqLookup_seqSet_other (st : SeqSt) (name other : String) (v : Nat)
    (h : name ≠ other) : seqLookup (seqSet st name v) other = seqLookup st other := by
  induction st with
  | nil =>
      simp only [seqSet, seqLookup]
      rw [if_neg (by simpa using h)]
  | cons kv rest ih =>
      obtain ⟨k, w⟩ := kv
      rw [seqSet]
      by_cases hk : (k == name) = true
      · have hkn : k = name := by simpa using hk
        have hko : ¬((k == other) = true) := by
          simp only [beq_iff_eq]
          intro hc
          exact h (by rw [← hkn]; exact hc)
        rw [if_pos hk, seqLookup, seqLookup, if_neg hko, if_neg hko]
      · rw [if_neg hk, seqLookup, seqLookup]
        by_cases hko : (k == other) = true
        · rw [if_pos hko, if_pos hko]
        · rw [if_neg hko, if_neg hko]
          exact ih

theorem nextval_eq (st : SeqSt) (name : String) :
    nextval st name = (seqVal st name, seqSet st name (seqVal st name + 1)) := by
  rw [nextval, seqVal]
  cases seqLookup st name <;> rfl

/-- Name of the per-workspace sequence for a lowercased kind, the format
ws_{workspace}_{kind}_seq of connection.py line 234. -/
def seqName (w : Nat) (k : String) : String :=
  "ws_" ++ decString w ++ "_" ++ k ++ "_seq"

/-- Lowercased sequence kinds of the four triggers. -/
def lowKinds : List String := ["req", "test", "asset", "rel"]

/-- Public id prefixes of the four triggers. -/
def upKinds : List String := ["REQ", "TEST", "ASSET", "REL"]

theorem kinds_data_inj : ∀ a ∈ lowKinds, ∀ b ∈ lowKinds,
    a.data ++ "_seq".data = b.data ++ "_seq".data → a = b := by decide

/-- Distinct workspaces or kinds name distinct sequences: the decimal run
after ws_ ends at the first underscore, and the four kind markers
differ. -/
theorem seqName_inj (w w' : Nat) (k k' : String)
    (hk : k ∈ lowKinds) (hk' : k' ∈ lowKinds)
    (h : seqName w k = seqName w' k') : w = w' ∧ k = k' := by
  have hd := congrArg String.data h
  simp only [seqName, String.data_append, decString] at hd
  -- hd now relates the two character lists
  have hd' : decDigits w ++ '_' :: (k.data ++ "_seq".data) =
      decDigits w' ++ '_' :: (k'.data ++ "_seq".data) := by
    simpa using hd
  obtain ⟨e1, _, e3⟩ := sep_run_inj Char.isDigit (decDigits w) (decDigits w')
    '_' '_' (k.data ++ "_seq".data) (k'.data ++ "_seq".data)
    (decDigits_all_digits w) (decDigits_all_digits w') (by decide) (by decide)
    hd'
  refine ⟨decDigits_inj w w' e1, kinds_data_inj k hk k' hk' e3⟩

/-- SQL function generate_public_id (connection.py lines 224-248): the
sequence is named ws_{workspace}_{lower pfx}_seq, with a NULL workspace
rendered as an empty string by format; the sequence is created on demand,
and the produced id is pfx-{next value}. -/
def generate_public_id (st : SeqSt) (workspace_id : Option Nat)
    (pfx : String) : String × SeqSt :=
  let name := "ws_" ++ (match workspace_id with
    | some w => decString w
    | none => "") ++ "_" ++ asciiLower pfx ++ "_seq"
  let (v, st') := nextval st name
  (pfx ++ "-" ++ decString v, st')

/-- Row insertion observed by the four public id triggers, carrying the
column the trigger reads to locate the workspace and the incoming
public_id value. -/
inductive InsertEvent where
  | req (req_collection_id : Nat) (public_id : Option String)
  | testcase (workspace_id : Nat) (public_id : Option String)
  | asset (workspace_id : Nat) (public_id : Option String)
  | release (module_id : Nat) (public_id : Option String)
deriving DecidableEq, Repr

/-- Tables the req and release triggers consult. -/
structure PublicIdEnv where
  req_collections : List ReqCollection := []
  modules : List Module := []
deriving Repr

/-- Workspace the trigger resolves for a row: set_req_public_id selects it
from the req_collection of the new row, set_release_public_id from the
module, and the testcase and asset triggers read NEW.workspace_id. -/
def wsOf (env : PublicIdEnv) : InsertEvent → Option Nat
  | InsertEvent.req rcid _ =>
      (env.req_collections.find? (fun rc => rc.id == rcid)).map
        ReqCollection.workspace_id
  | InsertEvent.testcase w _ => some w
  | InsertEvent.asset w _ => some w
  | InsertEvent.release mid _ =>
      (env.modules.find? (fun m => m.id == mid)).map Module.workspace_id

/-- Public id marker passed to generate_public_id by each trigger. -/
def pfxOf : InsertEvent → String
  | InsertEvent.req _ _ => "REQ"
  | InsertEvent.testcase _ _ => "TEST"
  | InsertEvent.asset _ _ => "ASSET"
  | InsertEvent.release _ _ => "REL"

/-- Incoming public_id of the new row. -/
def pidOf : InsertEvent → Option String
  | InsertEvent.req _ p => p
  | InsertEvent.testcase _ p => p
  | InsertEvent.asset _ p => p
  | InsertEvent.release _ p => p

/-- Trigger guard NEW.public_id IS NULL OR NEW.public_id = ''. -/
def isEmptyPid : Option String → Bool
  | none => true
  | some s => s == ""

/-- One BEFORE INSERT trigger firing: an empty public id is replaced by the
generated one, any other value is kept and the registry is untouched. -/
def applyTrigger (env : PublicIdEnv) (st : SeqSt) (ev : InsertEvent) :
    String × SeqSt :=
  if isEmptyPid (pidOf ev) then
    generate_public_id st (wsOf env ev) (pfxOf ev)
  else ((pidOf ev).getD "", st)

/-- Runs a list of inserts, returning each event paired with the public id
stored for its row, and the final sequence registry. -/
def runInserts (env : PublicIdEnv) :
    List InsertEvent → SeqSt → List (InsertEvent × String) × SeqSt
  | [], st => ([], st)
  | ev :: evs, st =>
      let p := applyTrigger env st ev
      let r := runInserts env evs p.2
      ((ev, p.1) :: r.1, r.2)

/-- Rows whose ids are generated for workspace w and marker pfx: matching
marker, resolved workspace, and an empty incoming public_id. -/
def genFilter (env : PublicIdEnv) (w : Nat) (pfx : String)
    (ev : InsertEvent) : Bool :=
  pfxOf ev == pfx && wsOf env ev == some w && isEmptyPid (pidOf ev)

theorem seqVal_set_same (st : SeqSt) (n : String) (v : Nat) :
    seqVal (seqSet st n v) n = v := by
  rw [seqVal, seqLookup_seqSet_same]

theorem seqVal_set_other (st : SeqSt) (n m : String) (v : Nat) (h : n ≠ m) :
    seqVal (seqSet st n v) m = seqVal st m := by
  rw [seqVal, seqLookup_seqSet_other st n m v h, seqVal]

theorem generate_public_id_some (st : SeqSt) (w0 : Nat) (p : String) :
    generate_public_id st (some w0) p =
      (p ++ "-" ++ decString (seqVal st (seqName w0 (asciiLower p))),
       seqSet st (seqName w0 (asciiLower p))
         (seqVal st (seqName w0 (asciiLower p)) + 1)) := by
  rw [generate_public_id]
  dsimp only
  rw [nextval_eq]
  rfl

theorem runInserts_cons (env : PublicIdEnv) (ev : InsertEvent)
    (evs : List InsertEvent) (st : SeqSt) :
    runInserts env (ev :: evs) st =
      ((ev, (applyTrigger env st ev).1) ::
        (runInserts env evs (applyTrigger env st ev).2).1,
       (runInserts env evs (applyTrigger env st ev).2).2) := rfl

theorem applyTrigger_gen (env : PublicIdEnv) (st : SeqSt) (ev : InsertEvent)
    (w0 : Nat) (hempty : isEmptyPid (pidOf ev) = true)
    (hw : wsOf env ev = some w0) :
    applyTrigger env st ev =
      (pfxOf ev ++ "-" ++
         decString (seqVal st (seqName w0 (asciiLower (pfxOf ev)))),
       seqSet st (seqName w0 (asciiLower (pfxOf ev)))
         (seqVal st (seqName w0 (asciiLower (pfxOf ev))) + 1)) := by
  rw [applyTrigger, if_pos hempty, hw, generate_public_id_some]

theorem pfxOf_mem_upKinds (ev : InsertEvent) : pfxOf ev ∈ upKinds := by
  cases ev <;> simp [pfxOf, upKinds]

theorem asciiLower_upKinds : ∀ p ∈ upKinds, asciiLower p ∈ lowKinds := by decide

theorem asciiLower_inj_upKinds : ∀ a ∈ upKinds, ∀ b ∈ upKinds,
    asciiLower a = asciiLower b → a = b := by decide

/-- Core invariant: running inserts from any registry, the generated ids of
the rows matching workspace w and marker pfx continue that sequence's
numbering, one per matching row, in order. -/
theorem run_generated_ids (env : PublicIdEnv) (w : Nat) (pfx : String)
    (hpfx : pfx ∈ upKinds) :
    ∀ (evs : List InsertEvent) (st : SeqSt),
      (∀ ev ∈ evs, (wsOf env ev).isSome = true) →
      ((runInserts env evs st).1.filter
          (fun p => genFilter env w pfx p.1)).map Prod.snd =
        (List.range ((evs.filter (genFilter env w pfx)).length)).map
          (fun i => pfx ++ "-" ++ decString
            (seqVal st (seqName w (asciiLower pfx)) + i)) := by
  intro evs
  induction evs with
  | nil => intro st _; rfl
  | cons ev evs ih =>
      intro st hws
      have hwsev := hws ev (List.mem_cons_self ev evs)
      have hwstail : ∀ e ∈ evs, (wsOf env e).isSome = true :=
        fun e he => hws e (List.mem_cons_of_mem ev he)
      obtain ⟨w0, hw0⟩ := Option.isSome_iff_exists.1 hwsev
      rw [runInserts_cons]
      by_cases hg : genFilter env w pfx ev = true
      · -- the row matches: its id is generated from the tracked sequence
        have hg' := hg
        rw [genFilter, Bool.and_eq_true, Bool.and_eq_true] at hg'
        obtain ⟨⟨hpfxev, hwsev'⟩, hempty⟩ := hg'
        have hpfxe : pfxOf ev = pfx := by simpa using hpfxev
        have hwse : wsOf env ev = some w := by simpa using hwsev'
        have ha := applyTrigger_gen env st ev w hempty hwse
        rw [hpfxe] at ha
        rw [ha]
        simp only [List.filter_cons]
        dsimp only
        rw [if_pos hg, if_pos hg, List.map_cons]
        rw [ih (seqSet st (seqName w (asciiLower pfx))
              (seqVal st (seqName w (asciiLower pfx)) + 1)) hwstail]
        rw [seqVal_set_same]
        rw [List.length_cons, List.range_succ_eq_map, List.map_cons,
          List.map_map]
        congr 1
        refine List.map_congr_left (fun a _ => ?_)
        simp only [Function.comp_apply]
        have h : seqVal st (seqName w (asciiLower pfx)) + 1 + a =
            seqVal st (seqName w (asciiLower pfx)) + Nat.succ a := by omega
        rw [h]
      · -- the row does not match: the tracked sequence is untouched
        have hgfalse : genFilter env w pfx ev = false := by
          rw [Bool.eq_false_iff]
          exact hg
        by_cases hempty : isEmptyPid (pidOf ev) = true
        · have hne : seqName w0 (asciiLower (pfxOf ev)) ≠
              seqName w (asciiLower pfx) := by
            intro heq
            obtain ⟨e1, e2⟩ := seqName_inj w0 w (asciiLower (pfxOf ev))
              (asciiLower pfx)
              (asciiLower_upKinds (pfxOf ev) (pfxOf_mem_upKinds ev))
              (asciiLower_upKinds pfx hpfx) heq
            have hpe : pfxOf ev = pfx :=
              asciiLower_inj_upKinds (pfxOf ev) (pfxOf_mem_upKinds ev)
                pfx hpfx e2
            have : genFilter env w pfx ev = true := by
              rw [genFilter, hpe, hw0, e1, hempty]
              simp
            exact hg this
          have ha := applyTrigger_gen env st ev w0 hempty hw0
          rw [ha]
          simp only [List.filter_cons]
          dsimp only
          rw [if_neg (by rw [hgfalse]; exact Bool.false_ne_true),
            if_neg (by rw [hgfalse]; exact Bool.false_ne_true)]
          rw [ih (seqSet st (seqName w0 (asciiLower (pfxOf ev)))
                (seqVal st (seqName w0 (asciiLower (pfxOf ev))) + 1)) hwstail]
          rw [seqVal_set_other _ _ _ _ hne]
        · have ha : applyTrigger env st ev = ((pidOf ev).getD "", st) := by
            rw [applyTrigger, if_neg hempty]
          rw [ha]
          simp only [List.filter_cons]
          dsimp only
          rw [if_neg (by rw [hgfalse]; exact Bool.false_ne_true),
            if_neg (by rw [hgfalse]; exact Bool.false_ne_true)]
          exact ih st hwstail

/-- Rows arriving with a nonempty public_id keep it: the trigger guard does
not fire and the registry is untouched. -/
theorem run_keeps_nonempty (env : PublicIdEnv) :
    ∀ (evs : List InsertEvent) (st : SeqSt),
      ∀ p ∈ (runInserts env evs st).1,
        isEmptyPid (pidOf p.1) = false → some p.2 = pidOf p.1 := by
  intro evs
  induction evs with
  | nil =>
      intro st p hp
      simp [runInserts] at hp
  | cons ev evs ih =>
      intro st p hp hne
      rw [runInserts_cons] at hp
      rcases List.mem_cons.1 hp with rfl | hp'
      · dsimp only at hne ⊢
        have ha : applyTrigger env st ev = ((pidOf ev).getD "", st) := by
          rw [applyTrigger, if_neg (by rw [hne]; exact Bool.false_ne_true)]
        rw [ha]
        cases hpid : pidOf ev with
        | none => rw [hpid] at hne; simp [isEmptyPid] at hne
        | some s => rfl
      · exact ih _ p hp' hne

/-- C8: from a fresh database, the rows of each workspace w and each of the
four triggers whose public_id arrives NULL or empty receive, in insertion
order, exactly the ids prefix-1, prefix-2, ..., the numbering of each
workspace advancing independently of every other workspace and kind; rows
arriving with a nonempty public_id keep it.  The hypothesis asks every req
row to name an existing collection and every release row an existing
module, as the triggers resolve the workspace through them. -/
theorem public_id_triggers_sequential (env : PublicIdEnv)
    (evs : List InsertEvent)
    (hws : ∀ ev ∈ evs, (wsOf env ev).isSome = true)
    (w : Nat) (pfx : String) (hpfx : pfx ∈ upKinds) :
    ((runInserts env evs []).1.filter
        (fun p => genFilter env w pfx p.1)).map Prod.snd =
      (List.range ((evs.filter (genFilter env w pfx)).length)).map
        (fun i => pfx ++ "-" ++ decString (i + 1)) ∧
    (∀ p ∈ (runInserts env evs []).1,
      isEmptyPid (pidOf p.1) = false → some p.2 = pidOf p.1) := by
  constructor
  · rw [run_generated_ids env w pfx hpfx evs [] hws]
    refine List.map_congr_left (fun a _ => ?_)
    have h : seqVal ([] : SeqSt) (seqName w (asciiLower pfx)) + a = a + 1 := by
      rw [show seqVal ([] : SeqSt) (seqName w (asciiLower pfx)) = 1 from rfl]
      omega
    rw [h]
  · exact run_keeps_nonempty env evs []

/-- Tables for the C8 witness: collection 5 lives in workspace 1,
collection 6 in workspace 2, module 7 in workspace 2. -/
def envW : PublicIdEnv :=
  { req_collections :=
      [{ id := 5, workspace_id := 1, name := "c1" },
       { id := 6, workspace_id := 2, name := "c2" }],
    modules :=
      [{ id := 7, workspace_id := 2, req_collection_id := 6,
         name := "m" }] }

/-- Inserts for the C8 witness: requirements in two workspaces interleaved
with other kinds and one row carrying its own id. -/
def evsW : List InsertEvent :=
  [InsertEvent.req 5 none,
   InsertEvent.req 6 none,
   InsertEvent.testcase 1 none,
   InsertEvent.req 5 (some ""),
   InsertEvent.release 7 none,
   InsertEvent.asset 2 (some "KEEP-9"),
   InsertEvent.req 5 none]

/-- C8 witness: the theorem applied to the concrete environment, events,
workspace 1 and the REQ marker. -/
theorem public_id_triggers_sequential_witness :
    (∀ ev ∈ evsW, (wsOf envW ev).isSome = true) ∧
    ("REQ" ∈ upKinds) ∧
    (((runInserts envW evsW []).1.filter
        (fun p => genFilter envW 1 "REQ" p.1)).map Prod.snd =
      (List.range ((evsW.filter (genFilter envW 1 "REQ")).length)).map
        (fun i => "REQ" ++ "-" ++ decString (i + 1)) ∧
    (∀ p ∈ (runInserts envW evsW []).1,
      isEmptyPid (pidOf p.1) = false → some p.2 = pidOf p.1)) :=
  ⟨by decide, by decide,
   public_id_triggers_sequential envW evsW (by decide) 1 "REQ" (by decide)⟩

end Nema

namespace Nema

/-- Auto-created base module of the concrete deletion witness state. -/
def mAuto : Module :=
  { id := 10, workspace_id := 1, req_collection_id := 20,
    name := "alpha - Base Module", shared := false,
    meta_data := some { created_by := some "product_service",
                        product_id := some 1 } }

/-- Concrete state for the deletion witnesses: product 1 with its
auto-created module 10 and collection 20, plus a shared user module 11 on a
user collection 21, both linked to the product. -/
def dbDeleteInput : DB :=
  { products := [{ id := 1, workspace_id := 1, name := "alpha" }],
    req_collections :=
      [{ id := 20, workspace_id := 1, name := "alpha - Requirements",
         meta_data := some { created_by := some "product_service",
                             product_id := some 1 } },
       { id := 21, workspace_id := 1, name := "user collection" }],
    modules :=
      [mAuto,
       { id := 11, workspace_id := 1, req_collection_id := 21,
         name := "user module", shared := true }],
    product_modules :=
      [{ workspace_id := 1, product_id := 1, module_id := 10 },
       { workspace_id := 1, product_id := 1, module_id := 11 }],
    reqs := [{ id := 100, req_collection_id := 20 }],
    next_product_id := 2, next_rc_id := 22, next_module_id := 12 }

/-- State delete_product produces on the witness input. -/
def dbDeleteOutcome : DB :=
  match delete_product dbDeleteInput 1 1 with
  | Except.ok d => d
  | Except.error _ => dbDeleteInput

/-- Preview get_deletion_preview produces on the witness input. -/
def pvOutcome : ProductDeletionPreview :=
  match get_deletion_preview dbDeleteInput 1 1 with
  | Except.ok pv => pv
  | Except.error _ => {}

/-- C2 witness: the selective-deletion theorem applied to the concrete
state, at the auto-created module. -/
theorem delete_product_deletes_exactly_auto_created_witness :
    delete_product dbDeleteInput 1 1 = Except.ok dbDeleteOutcome ∧
    (mAuto.id ∉ dbDeleteOutcome.modules.map Module.id ↔
      (isAssociated dbDeleteInput 1 1 mAuto = true ∧
       isAutoCreatedModule mAuto 1 = true ∧
       mAuto.shared = false ∧
       moduleUsedByOtherProduct dbDeleteInput mAuto.id 1 = false)) :=
  ⟨rfl,
   (delete_product_deletes_exactly_auto_created dbDeleteInput 1 1
     dbDeleteOutcome rfl (by decide) (by decide) (by decide)).1 mAuto
     (by decide)⟩

/-- C5 witness: the preview-matches-delete theorem applied to the concrete
state, at the auto-created module id and collection id. -/
theorem deletion_preview_matches_delete_witness :
    delete_product dbDeleteInput 1 1 = Except.ok dbDeleteOutcome ∧
    get_deletion_preview dbDeleteInput 1 1 = Except.ok pvOutcome ∧
    (10 ∈ pvOutcome.modules_to_delete.map PreviewModuleEntry.id ↔
      (10 ∈ dbDeleteInput.modules.map Module.id ∧
       10 ∉ dbDeleteOutcome.modules.map Module.id)) ∧
    (20 ∈ pvOutcome.req_collections_to_delete.map PreviewRcEntry.id ↔
      (20 ∈ dbDeleteInput.req_collections.map ReqCollection.id ∧
       20 ∉ dbDeleteOutcome.req_collections.map ReqCollection.id)) :=
  ⟨rfl, rfl,
   (deletion_preview_matches_delete dbDeleteInput 1 1 dbDeleteOutcome
     pvOutcome rfl rfl).1 10,
   (deletion_preview_matches_delete dbDeleteInput 1 1 dbDeleteOutcome
     pvOutcome rfl rfl).2 20⟩

/-- Product row of the atomicity witness state. -/
def prodAlpha : Product := { id := 1, workspace_id := 1, name := "alpha" }

/-- C4 witness: the atomicity theorem applied to the concrete state, with a
failure injected at the third creation step. -/
theorem product_workflows_atomic_witness :
    findProduct dbDeleteInput 1 1 = some prodAlpha ∧
    (2 < 4 ∧ 0 < 1 ∧ 3 < 4) ∧
    runOps (createOps dbDeleteInput 1 "beta" none none true) (some 2) 0
        ⟨dbDeleteInput, dbDeleteInput⟩ = (⟨dbDeleteInput, dbDeleteInput⟩, false) :=
  ⟨rfl, ⟨by decide, by decide, by decide⟩,
   (product_workflows_atomic dbDeleteInput 1 "beta" none none 1 prodAlpha rfl
     2 0 3 (by decide) (by decide) (by decide)).1⟩

/-- C6 witness: the amended statuses theorem applied to the concrete
missing-product state. -/
theorem missing_product_statuses_witness :
    findProduct dbMissingProduct 1 2 = none ∧
    get_product_endpoint dbMissingProduct 1 2 true = 404 ∧
    delete_product_endpoint dbMissingProduct 1 2 = (dbMissingProduct, 500) :=
  ⟨rfl, (missing_product_statuses dbMissingProduct 1 2 rfl).1,
   (missing_product_statuses dbMissingProduct 1 2 rfl).2.2.2.1⟩

end Nema
